import Mathlib

/-!
Verification of the mount handler of supertag
(src/cli/handlers/mount.rs, function handle and run_migrations).

The handler is embedded shallowly as a trace-producing function: every
observable effect of the Rust code (opening a store connection, running
migrations, constructing the connection pool, forking, constructing a
notifier, the kernel mount call, the signal wait loop, ...) becomes an
event, and the handler becomes a pure function from an environment
(platform, CLI flags, which fallible calls fail, the termination flag
stream) to the list of events executed by one process generation
together with the outcome returned by that generation.
-/

namespace Supertag

/-- Observable effects of one process generation of the mount handler.
Each constructor mirrors one call site in src/cli/handlers/mount.rs. -/
inductive Ev
  /-- opener::open(&mountpoint), line 67 -/
  | openerOpenMountpoint
  /-- opener::open(share_settings.supertag_dir()), line 69 -/
  | openerOpenSupertagDir
  /-- ThreadConnPool::new(db_path.clone()), lines 73 and 109 -/
  | connPoolNew
  /-- the fork() call resolving, line 75 -/
  | forkPoint
  /-- println the forked child PID in the parent, line 78 -/
  | reportChildPid
  /-- Connection::open inside run_migrations, line 38 -/
  | storeConnOpen
  /-- sql::migrations::migrate inside run_migrations, line 39 -/
  | migrate
  /-- DesktopNotifier::new, line 92 -/
  | desktopNotifierNew
  /-- UDSNotifier::new, line 118 -/
  | udsNotifierNew
  /-- signal_hook::flag::register(SIGINT, flag), line 121 -/
  | registerSigint
  /-- fuse::TagFilesystem::new, lines 97 and 123 -/
  | tagFilesystemNew
  /-- fuse_sys::mount, lines 99 and 124 -/
  | kernelMount
  /-- mount_handle.lock().wait(), line 101 -/
  | waitMountHandle
  /-- the wait loop reading the sigint flag for the i-th time, line 126 -/
  | checkFlag (i : Nat)
  /-- thread::sleep(Duration::from_millis(ms)), line 127 -/
  | sleepMs (ms : Nat)
  deriving DecidableEq, Repr

/-- Errors the handler can return (the error branches of the fallible
calls the handler makes, each surfaced through the question-mark
operator or an explicit return). -/
inductive Err
  /-- CliError::InvalidMountDir, line 54 -/
  | invalidMountDir
  /-- opener::open failed, lines 67 and 69 -/
  | openerFail
  /-- Connection::open failed inside run_migrations, line 38 -/
  | storeOpenFail
  /-- sql::migrations::migrate failed, line 39 -/
  | migrateFail
  /-- UDSNotifier::new failed, line 118 -/
  | udsNewFail
  /-- signal_hook::flag::register failed, line 121 -/
  | sigintRegFail
  /-- fuse_sys::mount failed, lines 99 and 124 -/
  | mountFail
  deriving DecidableEq, Repr

/-- Outcome of one process generation of the handler. The running
constructor is a modelling artifact of bounding the foreground wait
loop by fuel: it means the loop had not yet observed the flag. -/
inductive Res
  | ok
  | err (e : Err)
  | running
  deriving DecidableEq, Repr

/-- Which side of the fork this process generation is (only meaningful
for a background-mode invocation). -/
inductive Role
  | parent
  | child
  deriving DecidableEq, Repr

/-- Environment of one invocation of the handler as observed by one
process generation: platform predicate, CLI flag, fork role, which of
the fallible calls fail, and the value of the SIGINT termination flag
at each successive read by the wait loop. -/
structure Env where
  /-- cfg!(target_os = "linux"), line 53 -/
  linux : Bool
  /-- mountpoint.exists(), lines 53 and 66 -/
  mountpointExists : Bool
  /-- args.is_present("foreground"), line 64 -/
  foreground : Bool
  /-- which generation we observe after fork() -/
  role : Role
  /-- opener::open fails -/
  openerFails : Bool
  /-- Connection::open fails in run_migrations -/
  connOpenFails : Bool
  /-- sql::migrations::migrate fails -/
  migrateFails : Bool
  /-- UDSNotifier::new fails -/
  udsNewFails : Bool
  /-- signal_hook::flag::register fails -/
  sigintRegFails : Bool
  /-- fuse_sys::mount fails -/
  mountFails : Bool
  /-- value of the sigint AtomicBool at the i-th load of the wait loop -/
  flag : Nat → Bool
  /-- bound on the number of wait-loop iterations we model -/
  fuel : Nat

/-- Modelled from the spec: ThreadConnPool (crate::sql::tpool, not part
of the sources given) hands each worker thread a dedicated store
connection, created lazily on first use by that thread; constructing
the pool object opens no connection, since no thread has run. The pool
state is its store path and the thread-keyed map of opened
connections. -/
structure ThreadConnPool where
  dbPath : String
  conns : List (Nat × Nat)

/-- Modelled from the spec: ThreadConnPool::new stores the path and
opens no connection. -/
def ThreadConnPool.new (p : String) : ThreadConnPool :=
  { dbPath := p, conns := [] }

/-- run_migrations (mount.rs lines 36-41): open a store connection,
then run the migrations on it; either step can fail. The event list
records the successful store-connection open and the migrate call
(a migrate call that fails still happened, so it is recorded). -/
def run_migrations (connOpenFails migrateFails : Bool) :
    List Ev × Option Err :=
  if connOpenFails then
    ([], some Err.storeOpenFail)
  else if migrateFails then
    ([Ev.storeConnOpen, Ev.migrate], some Err.migrateFail)
  else
    ([Ev.storeConnOpen, Ev.migrate], none)

/-- The foreground wait loop (mount.rs lines 126-128): load the sigint
flag; if set, exit the loop; otherwise sleep 100 ms and load again.
Bounded by fuel; returns the events and whether the loop exited. -/
def waitLoop (flag : Nat → Bool) : Nat → Nat → List Ev × Bool
  | 0, _ => ([], false)
  | fuel + 1, i =>
    if flag i then
      ([Ev.checkFlag i], true)
    else
      let rest := waitLoop flag fuel (i + 1)
      (Ev.checkFlag i :: Ev.sleepMs 100 :: rest.1, rest.2)

/-- The background branch of handle (mount.rs lines 72-105), after the
pre-fork events have been produced: fork, then the parent reports the
child PID and returns Ok, while the child runs run_migrations, builds
the desktop notifier, builds the filesystem, mounts and waits. -/
def backgroundBranch (e : Env) (pre : List Ev) : List Ev × Res :=
  let preFork := pre ++ [Ev.connPoolNew, Ev.forkPoint]
  match e.role with
  | Role.parent => (preFork ++ [Ev.reportChildPid], Res.ok)
  | Role.child =>
    let m := run_migrations e.connOpenFails e.migrateFails
    match m.2 with
    | some er => (preFork ++ m.1, Res.err er)
    | none =>
      let t := preFork ++ m.1 ++ [Ev.desktopNotifierNew, Ev.tagFilesystemNew, Ev.kernelMount]
      if e.mountFails then (t, Res.err Err.mountFail)
      else (t ++ [Ev.waitMountHandle], Res.ok)

/-- The foreground branch of handle (mount.rs lines 106-132):
run_migrations, construct the pool, construct the UDS notifier,
register the SIGINT handler, build the filesystem, mount, then poll
the termination flag with 100 ms sleeps until it is set. -/
def foregroundBranch (e : Env) (pre : List Ev) : List Ev × Res :=
  let m := run_migrations e.connOpenFails e.migrateFails
  match m.2 with
  | some er => (pre ++ m.1, Res.err er)
  | none =>
    let t1 := pre ++ m.1 ++ [Ev.connPoolNew, Ev.udsNotifierNew]
    if e.udsNewFails then (t1, Res.err Err.udsNewFail)
    else
      let t2 := t1 ++ [Ev.registerSigint]
      if e.sigintRegFails then (t2, Res.err Err.sigintRegFail)
      else
        let t3 := t2 ++ [Ev.tagFilesystemNew, Ev.kernelMount]
        if e.mountFails then (t3, Res.err Err.mountFail)
        else
          let lp := waitLoop e.flag e.fuel 0
          (t3 ++ lp.1, if lp.2 then Res.ok else Res.running)

/-- handle (mount.rs lines 43-133) as observed by one process
generation: validate the mount target (on linux it must already
exist), open the target or the collection directory as a usability
convenience, then take the background branch (fork) when the
foreground flag is absent and the foreground branch otherwise. -/
def handle (e : Env) : List Ev × Res :=
  if e.linux && !e.mountpointExists then
    ([], Res.err Err.invalidMountDir)
  else
    let openEv := if e.mountpointExists then Ev.openerOpenMountpoint
                  else Ev.openerOpenSupertagDir
    if e.openerFails then ([openEv], Res.err Err.openerFail)
    else
      let background := !e.foreground
      if background then backgroundBranch e [openEv]
      else foregroundBranch e [openEv]

/-- The events of a trace that happen strictly before the fork point
resolves (the whole trace when no fork point occurs). -/
def preForkEvents (t : List Ev) : List Ev :=
  t.takeWhile (fun ev => ev ≠ Ev.forkPoint)

/-- The events of a trace that happen strictly after the fork point. -/
def postForkEvents (t : List Ev) : List Ev :=
  (t.dropWhile (fun ev => ev ≠ Ev.forkPoint)).drop 1

/-- An event is a sleep of the wait loop. -/
def isSleep : Ev → Bool
  | Ev.sleepMs _ => true
  | _ => false

/-- An event is a read of the termination flag by the wait loop. -/
def isCheck : Ev → Bool
  | Ev.checkFlag _ => true
  | _ => false

/-- Every event the wait loop produces is a flag read or a 100 ms
sleep. -/
lemma waitLoop_mem (flag : Nat → Bool) :
    ∀ fuel start ev, ev ∈ (waitLoop flag fuel start).1 →
      (∃ i, ev = Ev.checkFlag i) ∨ ev = Ev.sleepMs 100 := by
  intro fuel
  induction fuel with
  | zero => intro start ev h; simp [waitLoop] at h
  | succ n ih =>
    intro start ev h
    by_cases hf : flag start = true
    · simp [waitLoop, hf] at h
      exact Or.inl ⟨start, h⟩
    · simp only [Bool.not_eq_true] at hf
      simp [waitLoop, hf] at h
      rcases h with h | h | h
      · exact Or.inl ⟨start, h⟩
      · exact Or.inr h
      · exact ih (start + 1) ev h

/-- If the termination flag is set at some read the loop will reach
within its fuel, the loop exits. -/
lemma waitLoop_exits (flag : Nat → Bool) :
    ∀ fuel start, (∃ i, i < fuel ∧ flag (start + i) = true) →
      (waitLoop flag fuel start).2 = true := by
  intro fuel
  induction fuel with
  | zero => intro start ⟨i, hi, _⟩; omega
  | succ n ih =>
    intro start ⟨i, hi, hfi⟩
    by_cases hf : flag start = true
    · simp [waitLoop, hf]
    · simp only [Bool.not_eq_true] at hf
      simp only [waitLoop, hf, Bool.false_eq_true, if_false]
      apply ih
      rcases i with _ | j
      · simp at hfi; rw [hfi] at hf; simp at hf
      · exact ⟨j, by omega, by rw [show start + 1 + j = start + (j + 1) by omega]; exact hfi⟩

/-- If the flag is set at the k-th read, the loop performs at most k
sleeps. -/
lemma waitLoop_sleep_count (flag : Nat → Bool) :
    ∀ fuel start k, k < fuel → flag (start + k) = true →
      ((waitLoop flag fuel start).1.countP isSleep) ≤ k := by
  intro fuel
  induction fuel with
  | zero => intro start k hk _; omega
  | succ n ih =>
    intro start k hk hfk
    by_cases hf : flag start = true
    · simp [waitLoop, hf, List.countP_cons, List.countP_nil, isSleep]
    · simp only [Bool.not_eq_true] at hf
      simp only [waitLoop, hf, Bool.false_eq_true, if_false, List.countP_cons]
      rcases k with _ | j
      · simp at hfk; rw [hfk] at hf; simp at hf
      · have hrec := ih (start + 1) j (by omega)
          (by rw [show start + 1 + j = start + (j + 1) by omega]; exact hfk)
        simp [isSleep]
        omega

/-- When the loop exits, it has read the flag exactly one more time
than it has slept: every sleep is followed by a re-read of the flag. -/
lemma waitLoop_check_count (flag : Nat → Bool) :
    ∀ fuel start, (waitLoop flag fuel start).2 = true →
      ((waitLoop flag fuel start).1.countP isCheck) =
        ((waitLoop flag fuel start).1.countP isSleep) + 1 := by
  intro fuel
  induction fuel with
  | zero => intro start h; simp [waitLoop] at h
  | succ n ih =>
    intro start h
    by_cases hf : flag start = true
    · simp [waitLoop, hf, List.countP_cons, List.countP_nil, isCheck, isSleep]
    · simp only [Bool.not_eq_true] at hf
      simp only [waitLoop, hf, Bool.false_eq_true, if_false, List.countP_cons] at h ⊢
      have := ih (start + 1) h
      simp [isCheck, isSleep]
      omega

/-- An event that is neither a flag read nor a 100 ms sleep never
occurs in the wait loop. -/
lemma not_mem_waitLoop (flag : Nat → Bool) (fuel start : Nat) (ev : Ev)
    (h1 : ∀ i, ev ≠ Ev.checkFlag i) (h2 : ev ≠ Ev.sleepMs 100) :
    ev ∉ (waitLoop flag fuel start).1 := by
  intro hmem
  rcases waitLoop_mem flag fuel start ev hmem with ⟨i, hi⟩ | h
  · exact h1 i hi
  · exact h2 h

@[simp] lemma forkPoint_not_mem_waitLoop (flag : Nat → Bool) (fuel start : Nat) :
    Ev.forkPoint ∉ (waitLoop flag fuel start).1 :=
  not_mem_waitLoop flag fuel start _ (by intro i h; cases h) (by intro h; cases h)

@[simp] lemma storeConnOpen_not_mem_waitLoop (flag : Nat → Bool) (fuel start : Nat) :
    Ev.storeConnOpen ∉ (waitLoop flag fuel start).1 :=
  not_mem_waitLoop flag fuel start _ (by intro i h; cases h) (by intro h; cases h)

@[simp] lemma migrate_not_mem_waitLoop (flag : Nat → Bool) (fuel start : Nat) :
    Ev.migrate ∉ (waitLoop flag fuel start).1 :=
  not_mem_waitLoop flag fuel start _ (by intro i h; cases h) (by intro h; cases h)

@[simp] lemma kernelMount_not_mem_waitLoop (flag : Nat → Bool) (fuel start : Nat) :
    Ev.kernelMount ∉ (waitLoop flag fuel start).1 :=
  not_mem_waitLoop flag fuel start _ (by intro i h; cases h) (by intro h; cases h)

@[simp] lemma desktopNotifierNew_not_mem_waitLoop (flag : Nat → Bool) (fuel start : Nat) :
    Ev.desktopNotifierNew ∉ (waitLoop flag fuel start).1 :=
  not_mem_waitLoop flag fuel start _ (by intro i h; cases h) (by intro h; cases h)

@[simp] lemma udsNotifierNew_not_mem_waitLoop (flag : Nat → Bool) (fuel start : Nat) :
    Ev.udsNotifierNew ∉ (waitLoop flag fuel start).1 :=
  not_mem_waitLoop flag fuel start _ (by intro i h; cases h) (by intro h; cases h)

/-- C1: For every background-mode invocation of the mount handler, no
store connection is opened in any process generation before that
generation's fork point has resolved: the Connection Pool object is
constructed before the fork but no connection is opened through it,
and the first store access (the Migrator's connection) happens only in
the child, after the fork. -/
theorem mount_background_no_store_before_fork (e : Env)
    (hbg : e.foreground = false) :
    Ev.storeConnOpen ∉ preForkEvents (handle e).1 ∧
    (e.role = Role.parent → Ev.storeConnOpen ∉ (handle e).1) ∧
    ((e.linux = true → e.mountpointExists = true) → e.openerFails = false →
      Ev.connPoolNew ∈ preForkEvents (handle e).1 ∧
      (e.role = Role.child → e.connOpenFails = false →
        Ev.storeConnOpen ∈ postForkEvents (handle e).1)) ∧
    (∀ p, (ThreadConnPool.new p).conns = []) := by
  obtain ⟨l, mp, fg, role, op, co, mi, ud, sr, mf, fl, fu⟩ := e
  cases fg <;> cases l <;> cases mp <;> cases role <;> cases op <;> cases co <;>
    cases mi <;> cases mf <;>
    simp_all [handle, backgroundBranch, run_migrations, preForkEvents,
      postForkEvents, ThreadConnPool.new]

/-- Witness for C1 at a concrete background environment. -/
theorem mount_background_no_store_before_fork_witness :
    Ev.storeConnOpen ∉ preForkEvents
      (handle ⟨true, true, false, Role.child, false, false, false, false, false,
        false, fun _ => false, 0⟩).1 := by
  exact (mount_background_no_store_before_fork
    ⟨true, true, false, Role.child, false, false, false, false, false,
      false, fun _ => false, 0⟩ rfl).1

/-- C2: For every background-mode invocation, after the fork the parent
process reports the child's process identity and returns immediately,
performing no store operation of any kind (no connection open, no
migration, no query). -/
theorem mount_background_parent_frame (e : Env)
    (hbg : e.foreground = false) (hrole : e.role = Role.parent)
    (hval : e.linux = true → e.mountpointExists = true)
    (hop : e.openerFails = false) :
    postForkEvents (handle e).1 = [Ev.reportChildPid] ∧
    (handle e).2 = Res.ok ∧
    Ev.storeConnOpen ∉ (handle e).1 ∧
    Ev.migrate ∉ (handle e).1 ∧
    Ev.kernelMount ∉ (handle e).1 := by
  obtain ⟨l, mp, fg, role, op, co, mi, ud, sr, mf, fl, fu⟩ := e
  cases fg <;> cases l <;> cases mp <;> cases role <;> cases op <;>
    simp_all [handle, backgroundBranch, run_migrations, preForkEvents,
      postForkEvents]

/-- Witness for C2 at a concrete background parent environment. -/
theorem mount_background_parent_frame_witness :
    postForkEvents (handle ⟨true, true, false, Role.parent, false, false, false,
      false, false, false, fun _ => false, 0⟩).1 = [Ev.reportChildPid] := by
  exact (mount_background_parent_frame
    ⟨true, true, false, Role.parent, false, false, false, false, false,
      false, fun _ => false, 0⟩ rfl rfl (fun _ => rfl) rfl).1

/-- C3: For every background-mode invocation, the child process alone
executes, in this order: run the Migrator, construct the
desktop-variant Notification Channel, perform the kernel mount call,
then wait on the mount handle until the mount ends. -/
theorem mount_background_child_sequence (e : Env)
    (hbg : e.foreground = false)
    (hval : e.linux = true → e.mountpointExists = true)
    (hop : e.openerFails = false) (hco : e.connOpenFails = false)
    (hmi : e.migrateFails = false) (hmf : e.mountFails = false) :
    (e.role = Role.child →
      postForkEvents (handle e).1 =
        [Ev.storeConnOpen, Ev.migrate, Ev.desktopNotifierNew,
         Ev.tagFilesystemNew, Ev.kernelMount, Ev.waitMountHandle] ∧
      (handle e).2 = Res.ok) ∧
    (e.role = Role.parent →
      Ev.storeConnOpen ∉ (handle e).1 ∧ Ev.migrate ∉ (handle e).1 ∧
      Ev.desktopNotifierNew ∉ (handle e).1 ∧ Ev.kernelMount ∉ (handle e).1 ∧
      Ev.waitMountHandle ∉ (handle e).1) := by
  obtain ⟨l, mp, fg, role, op, co, mi, ud, sr, mf, fl, fu⟩ := e
  cases fg <;> cases l <;> cases mp <;> cases role <;> cases op <;> cases co <;>
    cases mi <;> cases mf <;>
    simp_all [handle, backgroundBranch, run_migrations, preForkEvents,
      postForkEvents]

/-- Witness for C3 at a concrete background child environment. -/
theorem mount_background_child_sequence_witness :
    postForkEvents (handle ⟨true, true, false, Role.child, false, false, false,
      false, false, false, fun _ => false, 0⟩).1 =
      [Ev.storeConnOpen, Ev.migrate, Ev.desktopNotifierNew,
       Ev.tagFilesystemNew, Ev.kernelMount, Ev.waitMountHandle] := by
  exact ((mount_background_child_sequence
    ⟨true, true, false, Role.child, false, false, false, false, false,
      false, fun _ => false, 0⟩ rfl (fun _ => rfl) rfl rfl rfl rfl).1 rfl).1

/-- C5: On Linux, if the mount target directory does not exist the
handler fails with the InvalidMountTarget error, and this failure
occurs before any fork, any store access, and any kernel mount call:
the trace of effects is empty. -/
theorem mount_linux_missing_target_fails_early (e : Env)
    (hl : e.linux = true) (hmp : e.mountpointExists = false) :
    (handle e).2 = Res.err Err.invalidMountDir ∧ (handle e).1 = [] := by
  obtain ⟨l, mp, fg, role, op, co, mi, ud, sr, mf, fl, fu⟩ := e
  simp_all [handle]

/-- Witness for C5 at a concrete environment with a missing target. -/
theorem mount_linux_missing_target_fails_early_witness :
    (handle ⟨true, false, false, Role.parent, false, false, false, false, false,
      false, fun _ => false, 0⟩).2 = Res.err Err.invalidMountDir := by
  exact (mount_linux_missing_target_fails_early
    ⟨true, false, false, Role.parent, false, false, false, false, false,
      false, fun _ => false, 0⟩ rfl rfl).1

/-- C10: For every invocation of the mount handler that passes target
validation and the convenience open, the session forks into the
background if and only if the foreground flag is absent from the
arguments; detached is the default topology. -/
theorem mount_background_default_iff_no_foreground_flag (e : Env)
    (hval : e.linux = true → e.mountpointExists = true)
    (hop : e.openerFails = false) :
    Ev.forkPoint ∈ (handle e).1 ↔ e.foreground = false := by
  obtain ⟨l, mp, fg, role, op, co, mi, ud, sr, mf, fl, fu⟩ := e
  cases fg <;> cases l <;> cases mp <;> cases role <;> cases op <;> cases co <;>
    cases mi <;> cases ud <;> cases sr <;> cases mf <;>
    simp_all [handle, backgroundBranch, foregroundBranch, run_migrations]

@[simp] lemma waitLoop_count_migrate (flag : Nat → Bool) (fuel start : Nat) :
    (waitLoop flag fuel start).1.count Ev.migrate = 0 :=
  List.count_eq_zero.mpr (migrate_not_mem_waitLoop flag fuel start)

@[simp] lemma waitLoop_count_storeConnOpen (flag : Nat → Bool) (fuel start : Nat) :
    (waitLoop flag fuel start).1.count Ev.storeConnOpen = 0 :=
  List.count_eq_zero.mpr (storeConnOpen_not_mem_waitLoop flag fuel start)

@[simp] lemma waitLoop_count_uds (flag : Nat → Bool) (fuel start : Nat) :
    (waitLoop flag fuel start).1.count Ev.udsNotifierNew = 0 :=
  List.count_eq_zero.mpr (udsNotifierNew_not_mem_waitLoop flag fuel start)

@[simp] lemma waitLoop_count_desktop (flag : Nat → Bool) (fuel start : Nat) :
    (waitLoop flag fuel start).1.count Ev.desktopNotifierNew = 0 :=
  List.count_eq_zero.mpr (desktopNotifierNew_not_mem_waitLoop flag fuel start)

/-- Normal form of the foreground path when no fallible call fails:
the effect sequence of mount.rs lines 106-132 followed by the wait
loop. -/
lemma handle_foreground_success (e : Env)
    (hfg : e.foreground = true)
    (hval : e.linux = true → e.mountpointExists = true)
    (hop : e.openerFails = false) (hco : e.connOpenFails = false)
    (hmi : e.migrateFails = false) (hud : e.udsNewFails = false)
    (hsr : e.sigintRegFails = false) (hmf : e.mountFails = false) :
    handle e =
      ((if e.mountpointExists then Ev.openerOpenMountpoint
        else Ev.openerOpenSupertagDir) ::
       Ev.storeConnOpen :: Ev.migrate :: Ev.connPoolNew :: Ev.udsNotifierNew ::
       Ev.registerSigint :: Ev.tagFilesystemNew :: Ev.kernelMount ::
       (waitLoop e.flag e.fuel 0).1,
       if (waitLoop e.flag e.fuel 0).2 then Res.ok else Res.running) := by
  obtain ⟨l, mp, fg, role, op, co, mi, ud, sr, mf, fl, fu⟩ := e
  cases fg <;> cases l <;> cases mp <;> cases op <;> cases co <;> cases mi <;>
    cases ud <;> cases sr <;> cases mf <;>
    simp_all [handle, foregroundBranch, run_migrations]

/-- C4: For every foreground-mode invocation, the handler executes, in
this order: run the Migrator directly (no fork), open a socket-based
Notification Channel, perform the kernel mount call, then enter a wait
loop polling a termination flag that the registered SIGINT handler
sets, and return cleanly once the flag is set. -/
theorem mount_foreground_sequence (e : Env)
    (hfg : e.foreground = true)
    (hval : e.linux = true → e.mountpointExists = true)
    (hop : e.openerFails = false) (hco : e.connOpenFails = false)
    (hmi : e.migrateFails = false) (hud : e.udsNewFails = false)
    (hsr : e.sigintRegFails = false) (hmf : e.mountFails = false)
    (hflag : ∃ k, k < e.fuel ∧ e.flag k = true) :
    Ev.forkPoint ∉ (handle e).1 ∧
    (handle e).1 =
      (if e.mountpointExists then Ev.openerOpenMountpoint
       else Ev.openerOpenSupertagDir) ::
      Ev.storeConnOpen :: Ev.migrate :: Ev.connPoolNew :: Ev.udsNotifierNew ::
      Ev.registerSigint :: Ev.tagFilesystemNew :: Ev.kernelMount ::
      (waitLoop e.flag e.fuel 0).1 ∧
    (handle e).2 = Res.ok := by
  have hexit : (waitLoop e.flag e.fuel 0).2 = true := by
    obtain ⟨k, hk, hfk⟩ := hflag
    exact waitLoop_exits e.flag e.fuel 0 ⟨k, hk, by simpa using hfk⟩
  have hnf := handle_foreground_success e hfg hval hop hco hmi hud hsr hmf
  refine ⟨?_, ?_, ?_⟩
  · rw [hnf]
    rcases e.mountpointExists with _ | _ <;> simp
  · rw [hnf]
  · rw [hnf]
    simp [hexit]

/-- Witness for C4 at a concrete foreground environment whose flag is
set at the first read. -/
theorem mount_foreground_sequence_witness :
    (handle ⟨true, true, true, Role.parent, false, false, false, false, false,
      false, fun _ => true, 1⟩).2 = Res.ok := by
  exact (mount_foreground_sequence
    ⟨true, true, true, Role.parent, false, false, false, false, false,
      false, fun _ => true, 1⟩ rfl (fun _ => rfl) rfl rfl rfl rfl rfl rfl
    ⟨0, by decide, rfl⟩).2.2

/-- C6: In every process generation that will serve the mount, the
Migrator is invoked exactly once per invocation of the handler (once
in the foreground path, once in the background child, never in the
background parent), completing before the kernel mount call; the only
store connection the handler opens is the Migrator's one. -/
theorem mount_migrator_once_before_mount (e : Env)
    (hval : e.linux = true → e.mountpointExists = true)
    (hop : e.openerFails = false) (hco : e.connOpenFails = false)
    (hmi : e.migrateFails = false) (hud : e.udsNewFails = false)
    (hsr : e.sigintRegFails = false) (hmf : e.mountFails = false) :
    ((e.foreground = true ∨ e.role = Role.child) →
      (handle e).1.count Ev.migrate = 1 ∧
      (handle e).1.count Ev.storeConnOpen = 1 ∧
      Ev.kernelMount ∉ (handle e).1.takeWhile (fun ev => ev ≠ Ev.migrate)) ∧
    (e.foreground = false → e.role = Role.parent →
      (handle e).1.count Ev.migrate = 0 ∧
      (handle e).1.count Ev.storeConnOpen = 0) := by
  obtain ⟨l, mp, fg, role, op, co, mi, ud, sr, mf, fl, fu⟩ := e
  cases fg <;> cases l <;> cases mp <;> cases role <;> cases op <;> cases co <;>
    cases mi <;> cases ud <;> cases sr <;> cases mf <;>
    simp_all [handle, backgroundBranch, foregroundBranch, run_migrations,
      List.count_append, List.count_cons, List.takeWhile]

/-- Witness for C6 at a concrete background child environment. -/
theorem mount_migrator_once_before_mount_witness :
    (handle ⟨true, true, false, Role.child, false, false, false, false, false,
      false, fun _ => false, 0⟩).1.count Ev.migrate = 1 := by
  exact ((mount_migrator_once_before_mount
    ⟨true, true, false, Role.child, false, false, false, false, false,
      false, fun _ => false, 0⟩ (fun _ => rfl) rfl rfl rfl rfl rfl rfl).1
    (Or.inr rfl)).1

/-- C7: If migration fails, or Notification Channel construction
fails, or the kernel mount call fails, the handler returns that error
to the invoking caller, and in the migration-failure and
notifier-failure cases no kernel mount call is ever attempted. -/
theorem mount_error_propagation (e : Env)
    (hval : e.linux = true → e.mountpointExists = true)
    (hop : e.openerFails = false)
    (hserv : e.foreground = true ∨ e.role = Role.child) :
    (e.connOpenFails = true →
      (handle e).2 = Res.err Err.storeOpenFail ∧
      Ev.kernelMount ∉ (handle e).1) ∧
    (e.connOpenFails = false → e.migrateFails = true →
      (handle e).2 = Res.err Err.migrateFail ∧
      Ev.kernelMount ∉ (handle e).1) ∧
    (e.foreground = true → e.connOpenFails = false → e.migrateFails = false →
      e.udsNewFails = true →
      (handle e).2 = Res.err Err.udsNewFail ∧
      Ev.kernelMount ∉ (handle e).1) ∧
    (e.connOpenFails = false → e.migrateFails = false → e.udsNewFails = false →
      e.sigintRegFails = false → e.mountFails = true →
      (handle e).2 = Res.err Err.mountFail) := by
  obtain ⟨l, mp, fg, role, op, co, mi, ud, sr, mf, fl, fu⟩ := e
  cases fg <;> cases l <;> cases mp <;> cases role <;> cases op <;> cases co <;>
    cases mi <;> cases ud <;> cases sr <;> cases mf <;>
    simp_all [handle, backgroundBranch, foregroundBranch, run_migrations]

/-- Witness for C7 at a concrete background child environment whose
store-connection open fails. -/
theorem mount_error_propagation_witness :
    (handle ⟨true, true, false, Role.child, false, true, false, false, false,
      false, fun _ => false, 0⟩).2 = Res.err Err.storeOpenFail := by
  exact ((mount_error_propagation
    ⟨true, true, false, Role.child, false, true, false, false, false,
      false, fun _ => false, 0⟩ (fun _ => rfl) rfl (Or.inr rfl)).1 rfl).1

/-- C8 counterexample: a foreground invocation does not construct the
desktop notifier; it constructs the socket (UDS) notifier. This
refutes the claim that the desktop sink is the one used when running
attached/foreground. -/
theorem mount_foreground_uses_socket_not_desktop :
    Ev.desktopNotifierNew ∉ (handle ⟨true, true, true, Role.parent, false, false,
      false, false, false, false, fun _ => true, 1⟩).1 ∧
    Ev.udsNotifierNew ∈ (handle ⟨true, true, true, Role.parent, false, false,
      false, false, false, false, fun _ => true, 1⟩).1 := by
  decide

/-- C8 amended: the Notification Channel variant is selected once by
mount topology, with the socket (UDS) sink used in the attached
foreground path and the desktop (in-process) sink used in the
detached background child; the background parent constructs
neither. -/
theorem mount_notifier_selected_by_topology (e : Env)
    (hval : e.linux = true → e.mountpointExists = true)
    (hop : e.openerFails = false) (hco : e.connOpenFails = false)
    (hmi : e.migrateFails = false) (hud : e.udsNewFails = false)
    (hsr : e.sigintRegFails = false) (hmf : e.mountFails = false) :
    (e.foreground = true →
      (handle e).1.count Ev.udsNotifierNew = 1 ∧
      Ev.desktopNotifierNew ∉ (handle e).1) ∧
    (e.foreground = false → e.role = Role.child →
      (handle e).1.count Ev.desktopNotifierNew = 1 ∧
      Ev.udsNotifierNew ∉ (handle e).1) ∧
    (e.foreground = false → e.role = Role.parent →
      Ev.desktopNotifierNew ∉ (handle e).1 ∧
      Ev.udsNotifierNew ∉ (handle e).1) := by
  obtain ⟨l, mp, fg, role, op, co, mi, ud, sr, mf, fl, fu⟩ := e
  cases fg <;> cases l <;> cases mp <;> cases role <;> cases op <;> cases co <;>
    cases mi <;> cases ud <;> cases sr <;> cases mf <;>
    simp_all [handle, backgroundBranch, foregroundBranch, run_migrations,
      List.count_append, List.count_cons]

/-- Witness for the amended C8 at a concrete background child
environment. -/
theorem mount_notifier_selected_by_topology_witness :
    (handle ⟨true, true, false, Role.child, false, false, false, false, false,
      false, fun _ => false, 0⟩).1.count Ev.desktopNotifierNew = 1 := by
  exact ((mount_notifier_selected_by_topology
    ⟨true, true, false, Role.child, false, false, false, false, false,
      false, fun _ => false, 0⟩ (fun _ => rfl) rfl rfl rfl rfl rfl rfl).2.1
    rfl rfl).1

/-- C9: In the foreground wait loop every sleep is exactly 100 ms, the
flag is re-read after every sleep (one more read than sleeps), and
once the flag is set at the k-th read the loop performs at most k
sleeps and the handler returns cleanly, so the loop observes the flag
within a sub-second bound of it being set. -/
theorem mount_wait_loop_polling_bound (e : Env)
    (hfg : e.foreground = true)
    (hval : e.linux = true → e.mountpointExists = true)
    (hop : e.openerFails = false) (hco : e.connOpenFails = false)
    (hmi : e.migrateFails = false) (hud : e.udsNewFails = false)
    (hsr : e.sigintRegFails = false) (hmf : e.mountFails = false)
    (k : Nat) (hk : k < e.fuel) (hfk : e.flag k = true) :
    (∀ ms, Ev.sleepMs ms ∈ (handle e).1 → ms = 100) ∧
    (handle e).1.countP isSleep ≤ k ∧
    (handle e).1.countP isCheck = (handle e).1.countP isSleep + 1 ∧
    (handle e).2 = Res.ok := by
  have hexit : (waitLoop e.flag e.fuel 0).2 = true :=
    waitLoop_exits e.flag e.fuel 0 ⟨k, hk, by simpa using hfk⟩
  have hnf := handle_foreground_success e hfg hval hop hco hmi hud hsr hmf
  have hsleep : (waitLoop e.flag e.fuel 0).1.countP isSleep ≤ k :=
    waitLoop_sleep_count e.flag e.fuel 0 k hk (by simpa using hfk)
  have hcheck := waitLoop_check_count e.flag e.fuel 0 hexit
  refine ⟨?_, ?_, ?_, ?_⟩
  · intro ms hms
    rw [hnf] at hms
    have hmem : Ev.sleepMs ms ∈ (waitLoop e.flag e.fuel 0).1 := by
      cases hmp : e.mountpointExists <;> rw [hmp] at hms <;> simpa using hms
    rcases waitLoop_mem e.flag e.fuel 0 _ hmem with ⟨i, hi⟩ | h100
    · cases hi
    · simpa using h100
  · rw [hnf]
    rcases e.mountpointExists with _ | _ <;>
      simpa [List.countP_cons, isSleep] using hsleep
  · rw [hnf]
    rcases e.mountpointExists with _ | _ <;>
      simp [List.countP_cons, isSleep, isCheck] <;> omega
  · rw [hnf]
    simp [hexit]

/-- Witness for C9 at a concrete foreground environment whose flag is
set at the first read. -/
theorem mount_wait_loop_polling_bound_witness :
    (handle ⟨true, true, true, Role.parent, false, false, false, false, false,
      false, fun _ => true, 1⟩).1.countP isSleep ≤ 0 := by
  exact (mount_wait_loop_polling_bound
    ⟨true, true, true, Role.parent, false, false, false, false, false,
      false, fun _ => true, 1⟩ rfl (fun _ => rfl) rfl rfl rfl rfl rfl rfl
    0 (by decide) rfl).2.1

/-- Witness for C10 at a concrete environment without the foreground
flag. -/
theorem mount_background_default_iff_no_foreground_flag_witness :
    Ev.forkPoint ∈ (handle ⟨true, true, false, Role.parent, false, false, false,
      false, false, false, fun _ => false, 0⟩).1 := by
  exact (mount_background_default_iff_no_foreground_flag
    ⟨true, true, false, Role.parent, false, false, false, false, false,
      false, fun _ => false, 0⟩ (fun _ => rfl) rfl).mpr rfl

end Supertag
